import Mathlib

/-!
Shallow embedding of the session-authentication core of the repository
(src/app/models.py, src/app/auth.py, src/app/routers/auth.py,
src/app/routers/admin.py, src/app/routers/audio.py).

Timestamps are modelled as `Nat` (a point on a global clock); `datetime.utcnow()`
becomes an explicit `now : Nat` argument.  The relational store is a `DB` value
holding the `users` and `sessions` tables as lists; `query(...).first()` becomes
`List.find?`, an ORM attribute mutation followed by `db.commit()` becomes a
`List.map` that rewrites the row with the matching primary key.  External
randomness (`secrets.token_urlsafe`) and fresh primary keys are passed in as
arguments; external libraries (bcrypt via `verify_password`, libmagic via
`magic.from_buffer`) are passed in as function arguments.
-/

namespace TranscribeAuth

/-- Row of the `users` table (src/app/models.py, class User). -/
structure UserRec where
  id : Nat
  username : String
  email : String
  password_hash : String
  full_name : Option String
  is_active : Bool
  is_admin : Bool
  last_login_at : Option Nat
  created_at : Nat
deriving DecidableEq, Repr

/-- Row of the `sessions` table (src/app/models.py, class Session). -/
structure SessionRec where
  id : Nat
  user_id : Nat
  session_token : String
  expires_at : Nat
  created_at : Nat
  is_valid : Bool
deriving DecidableEq, Repr

/-- The relational store: both tables. -/
structure DB where
  users : List UserRec
  sessions : List SessionRec
deriving DecidableEq, Repr

/-- `db.query(Session).filter(Session.session_token == token, Session.is_valid == True).first()`
(src/app/auth.py, validate_session). -/
def findSessionValid (db : DB) (token : String) : Option SessionRec :=
  db.sessions.find? (fun s => s.session_token == token && s.is_valid)

/-- `db.query(Session).filter(Session.session_token == token).first()`
(src/app/auth.py, invalidate_session). -/
def findSessionByToken (db : DB) (token : String) : Option SessionRec :=
  db.sessions.find? (fun s => s.session_token == token)

/-- `db.query(User).filter(User.id == uid, User.is_active == True).first()`
(src/app/auth.py, validate_session). -/
def findActiveUserById (db : DB) (uid : Nat) : Option UserRec :=
  db.users.find? (fun u => u.id == uid && u.is_active)

/-- `db.query(User).filter(User.username == username, User.is_active == True).first()`
(src/app/auth.py, authenticate_user). -/
def findActiveUserByUsername (db : DB) (username : String) : Option UserRec :=
  db.users.find? (fun u => u.username == username && u.is_active)

/-- `session.is_valid = False; db.commit()`: persist `is_valid := false` on the
session row with primary key `sid`. -/
def setSessionInvalid (db : DB) (sid : Nat) : DB :=
  { db with sessions :=
      db.sessions.map (fun s => if s.id = sid then { s with is_valid := false } else s) }

/-- `user.last_login_at = datetime.utcnow(); db.commit()` on the user row with
primary key `uid`. -/
def setLastLogin (db : DB) (uid : Nat) (now : Nat) : DB :=
  { db with users :=
      db.users.map (fun u => if u.id = uid then { u with last_login_at := some now } else u) }

/-- `db.add(session); db.commit()` under the UNIQUE constraint on
`sessions.session_token` (src/app/models.py): committing a row whose token is
already present raises IntegrityError, modelled as `Except.error`. -/
def insertSession (db : DB) (s : SessionRec) : Except Unit DB :=
  if db.sessions.any (fun t => t.session_token == s.session_token) then
    .error ()
  else
    .ok { db with sessions := db.sessions ++ [s] }

/-- `create_session` (src/app/auth.py).  The freshly generated
`secrets.token_urlsafe(32)` value and the new primary key are passed in as
`token` and `sid`; `timedelta(days=SESSION_EXPIRY_DAYS)` is the argument `ttl`.
The source makes a single insertion attempt: there is no retry loop around the
uniqueness constraint. -/
def create_session (db : DB) (now ttl : Nat) (user_id : Nat) (sid : Nat)
    (token : String) : Except Unit (String × DB) :=
  let s : SessionRec :=
    { id := sid, user_id := user_id, session_token := token,
      expires_at := now + ttl, created_at := now, is_valid := true }
  match insertSession db s with
  | .error e => .error e
  | .ok dbN => .ok (token, dbN)

/-- `authenticate_user` (src/app/auth.py).  `verify` stands for
`verify_password` (bcrypt, an external library): it takes the plain password
and the stored hash. -/
def authenticate_user (db : DB) (verify : String → String → Bool) (now : Nat)
    (username password : String) : Option UserRec × DB :=
  match findActiveUserByUsername db username with
  | none => (none, db)
  | some u =>
    if verify password u.password_hash then
      (some { u with last_login_at := some now }, setLastLogin db u.id now)
    else
      (none, db)

/-- `validate_session` (src/app/auth.py): look the session up by token with
`is_valid == True`; if `session.expires_at < datetime.utcnow()` flip
`is_valid` to false, commit, and return none; otherwise look the owning user
up with `is_active == True`.  Returns the result together with the store
state after the call. -/
def validate_session (db : DB) (now : Nat) (token : String) :
    Option UserRec × DB :=
  match findSessionValid db token with
  | none => (none, db)
  | some s =>
    if s.expires_at < now then
      (none, setSessionInvalid db s.id)
    else
      (findActiveUserById db s.user_id, db)

/-- `invalidate_session` (src/app/auth.py): find the session by token only
(no `is_valid` filter); if absent return false; otherwise set `is_valid` to
false, commit, and return true. -/
def invalidate_session (db : DB) (token : String) : Bool × DB :=
  match findSessionByToken db token with
  | none => (false, db)
  | some s => (true, setSessionInvalid db s.id)

/-- `verify_admin` (src/app/auth.py). -/
def verify_admin (u : UserRec) : Bool :=
  u.is_active && u.is_admin

/-- `get_admin_user` (src/app/auth.py): validate the session; if that gives no
user, or the user fails `verify_admin`, return none. -/
def get_admin_user (db : DB) (now : Nat) (token : String) :
    Option UserRec × DB :=
  let v := validate_session db now token
  match v.1 with
  | none => (none, v.2)
  | some u => if verify_admin u then (some u, v.2) else (none, v.2)

/-- Body of `RegisterRequest` (src/app/schemas.py): the public registration
request carries username, email, password and an optional full name — and no
admin or activity flag. -/
structure RegisterRequest where
  username : String
  email : String
  password : String
  full_name : Option String
deriving DecidableEq, Repr

/-- Failure modes of the `/api/auth/register` endpoint. -/
inductive RegError where
  | usernameExists
  | emailExists
  | tokenCollision
deriving DecidableEq, Repr

/-- `register` (src/app/routers/auth.py): reject a duplicate username or
email; otherwise insert a new user with `is_active := true` and
`is_admin := false` (the router sets `is_active=True` explicitly and never
sets `is_admin`, so the column default `is_admin=False` from
src/app/models.py applies), then create a session for the new user.
`hashFn` stands for `auth.hash_password` (bcrypt); `new_id`, `sid` and
`token` are the externally generated primary keys and session token. -/
def register (db : DB) (now ttl : Nat) (hashFn : String → String)
    (req : RegisterRequest) (new_id sid : Nat) (token : String) :
    Except RegError (UserRec × DB) :=
  if db.users.any (fun u => u.username == req.username) then
    .error .usernameExists
  else if db.users.any (fun u => u.email == req.email) then
    .error .emailExists
  else
    let new_user : UserRec :=
      { id := new_id, username := req.username, email := req.email,
        password_hash := hashFn req.password, full_name := req.full_name,
        is_active := true, is_admin := false,
        last_login_at := none, created_at := now }
    let db1 : DB := { db with users := db.users ++ [new_user] }
    match create_session db1 now ttl new_id sid token with
    | .error _ => .error .tokenCollision
    | .ok (_, db2) => .ok (new_user, db2)

/-- Admin endpoint outcomes (src/app/routers/admin.py): 403 when the admin
gate denies, 404 when the target row is absent, success otherwise. -/
inductive AdminResult where
  | adminRequired
  | notFound
  | conflict
  | ok
deriving DecidableEq, Repr

/-- `revoke_session` (src/app/routers/admin.py): run the admin gate (whose
internal `validate_session` may itself lazily expire the caller's session);
look the target session up by primary key; set its `is_valid` to false and
commit. -/
def revoke_session (db : DB) (now : Nat) (admin_token : String)
    (session_id : Nat) : AdminResult × DB :=
  let g := get_admin_user db now admin_token
  match g.1 with
  | none => (.adminRequired, g.2)
  | some _ =>
    match g.2.sessions.find? (fun s => s.id == session_id) with
    | none => (.notFound, g.2)
    | some s => (.ok, setSessionInvalid g.2 s.id)

/-- `db.delete(user); db.commit()` with the `ondelete=CASCADE` foreign key on
`sessions.user_id` (src/app/models.py): the user row and every session row
owned by it are removed. -/
def deleteUserCascade (db : DB) (uid : Nat) : DB :=
  { users := db.users.filter (fun u => u.id ≠ uid),
    sessions := db.sessions.filter (fun s => s.user_id ≠ uid) }

/-- `delete_user` (src/app/routers/admin.py): run the admin gate; look the
target user up by id; forbid self-deletion; otherwise delete with cascade. -/
def delete_user (db : DB) (now : Nat) (admin_token : String) (user_id : Nat) :
    AdminResult × DB :=
  let g := get_admin_user db now admin_token
  match g.1 with
  | none => (.adminRequired, g.2)
  | some admin =>
    match g.2.users.find? (fun u => u.id == user_id) with
    | none => (.notFound, g.2)
    | some u =>
      if u.id = admin.id then (.conflict, g.2)
      else (.ok, deleteUserCascade g.2 u.id)

/-- Upload size bounds (src/app/routers/audio.py): MIN_SIZE = 1024. -/
def MIN_SIZE : Nat := 1024

/-- Upload size bounds (src/app/routers/audio.py): MAX_SIZE = 50 * 1024 * 1024. -/
def MAX_SIZE : Nat := 50 * 1024 * 1024

/-- The MIME allow-list of `upload_audio` (src/app/routers/audio.py). -/
def ALLOWED_MIME_TYPES : List String :=
  ["audio/wav", "audio/wave", "audio/x-wav"]

/-- Outcome of the post-authentication part of `upload_audio`: the three
HTTP 400 rejections and acceptance (the S3 put). -/
inductive UploadOutcome where
  | tooSmall (size : Nat)
  | tooLarge (size : Nat)
  | badType (mime : String)
  | accepted (s3_key : String) (mime : String) (size : Nat)
deriving DecidableEq, Repr

/-- Extension part of `os.path.splitext(filename)[1]` for a bare filename
(no directory separator): the suffix starting at the last dot, provided some
character of the name before that dot is not itself a dot (so a leading
all-dots prefix yields no extension). -/
def splitextExt (p : String) : String :=
  let cs := p.toList
  let dots := (List.range cs.length).filter (fun i => cs.get? i == some '.')
  match dots.getLast? with
  | none => ""
  | some i =>
    if (List.range i).any (fun j => !(cs.get? j == some '.')) then
      String.mk (cs.drop i)
    else ""

/-- Key derivation of `upload_audio` (src/app/routers/audio.py):
`uploads/{username}/{timestamp}_{unique_id}{file_extension}` where the
extension comes from the declared filename, defaulting to `.wav`. -/
def s3KeyFor (username timestamp unique_id filename : String) : String :=
  let ext := if splitextExt filename = "" then ".wav" else splitextExt filename
  "uploads/" ++ username ++ "/" ++ timestamp ++ "_" ++ unique_id ++ ext

/-- The validation part of `upload_audio` (src/app/routers/audio.py, after the
session check): size bounds first, then the MIME type sniffed from the byte
content (`magic.from_buffer(content, mime=True)`, passed in as `sniff`), then
key derivation for the accepted upload.  `content` is the raw byte buffer;
the declared filename enters only the derived key, never the decision. -/
def upload_audio (sniff : List Nat → String) (content : List Nat)
    (filename : String) (username timestamp unique_id : String) :
    UploadOutcome :=
  let file_size := content.length
  if file_size < MIN_SIZE then .tooSmall file_size
  else if MAX_SIZE < file_size then .tooLarge file_size
  else
    let mime := sniff content
    if ALLOWED_MIME_TYPES.contains mime then
      .accepted (s3KeyFor username timestamp unique_id filename) mime file_size
    else
      .badType mime

/-- True exactly on the accepted outcome. -/
def isAccepted : UploadOutcome → Bool
  | .accepted _ _ _ => true
  | _ => false

/-- True exactly on the two size rejections. -/
def sizeRejected : UploadOutcome → Bool
  | .tooSmall _ => true
  | .tooLarge _ => true
  | _ => false

/-- Fixture: the empty store. -/
def dbEmpty : DB := { users := [], sessions := [] }

/-- Fixture: an active non-admin user. -/
def alice : UserRec :=
  { id := 1, username := "alice", email := "alice@example.com",
    password_hash := "h1", full_name := none, is_active := true,
    is_admin := false, last_login_at := none, created_at := 0 }

/-- Fixture: an inactive admin user (a former admin). -/
def carlInactive : UserRec :=
  { id := 3, username := "carl", email := "carl@example.com",
    password_hash := "h3", full_name := none, is_active := false,
    is_admin := true, last_login_at := none, created_at := 0 }

/-- Fixture: a valid session for `alice` whose expiry instant is exactly 100. -/
def sessionBoundary : SessionRec :=
  { id := 1, user_id := 1, session_token := "tokA", expires_at := 100,
    created_at := 0, is_valid := true }

/-- Fixture: the store holding `alice` and `sessionBoundary`. -/
def dbBoundary : DB := { users := [alice], sessions := [sessionBoundary] }

/-- Fixture: a valid session for `alice` already past its expiry at time 100. -/
def sessionExpired : SessionRec :=
  { id := 2, user_id := 1, session_token := "tokB", expires_at := 50,
    created_at := 0, is_valid := true }

/-- Fixture: the store holding `alice` and `sessionExpired`. -/
def dbExpired : DB := { users := [alice], sessions := [sessionExpired] }

/-- Fixture: a valid unexpired session owned by the inactive `carlInactive`. -/
def sessionOfCarl : SessionRec :=
  { id := 3, user_id := 3, session_token := "tokC", expires_at := 1000,
    created_at := 0, is_valid := true }

/-- Fixture: the store holding `carlInactive` and `sessionOfCarl`. -/
def dbInactiveAdmin : DB := { users := [carlInactive], sessions := [sessionOfCarl] }

/-- Fixture: a session already invalidated. -/
def sessionStale : SessionRec :=
  { id := 4, user_id := 1, session_token := "tokD", expires_at := 100,
    created_at := 0, is_valid := false }

/-- Fixture: the store holding `alice` and the invalidated `sessionStale`. -/
def dbStale : DB := { users := [alice], sessions := [sessionStale] }

/-- Fixture: a store already holding a session whose token is `dup`. -/
def dbDup : DB :=
  { users := [alice],
    sessions := [{ id := 5, user_id := 1, session_token := "dup",
                   expires_at := 100, created_at := 0, is_valid := true }] }

/-- Fixture: a 2048-byte buffer of zeros. -/
def wavBuf : List Nat := List.replicate 2048 0

/-- Fixture: a one-byte buffer. -/
def txtBuf : List Nat := [0]

/-- Fixture: a sniffer reporting `audio/x-wav` on buffers of at least 1 KB and
`text/plain` otherwise. -/
def sniffDemo : List Nat → String :=
  fun c => if 1024 ≤ c.length then "audio/x-wav" else "text/plain"

/-- Fixture: a registration request. -/
def regReq : RegisterRequest :=
  { username := "dana", email := "dana@example.com", password := "pw",
    full_name := none }

/-- Fixture: the user row `register` inserts for `regReq` (with the identity
in place of the password hash function). -/
def regUser : UserRec :=
  { id := 9, username := "dana", email := "dana@example.com",
    password_hash := "pw", full_name := none, is_active := true,
    is_admin := false, last_login_at := none, created_at := 0 }

/-- Fixture: the store after registering `regReq` against the empty store. -/
def regDB : DB :=
  { users := [regUser],
    sessions := [{ id := 10, user_id := 9, session_token := "tokR",
                   expires_at := 7, created_at := 0, is_valid := true }] }

/-- One store transition of the system: each constructor is one operation of
the repository that can touch the store — login/password check
(`authenticate_user`), session issue (`create_session`, in its committed
case), session validation with lazy expiry (`validate_session`), logout
(`invalidate_session`), admin revocation (`revoke_session`), admin user
deletion with cascade (`delete_user`), and public registration
(`register`, in its committed case). -/
inductive Step : DB → DB → Prop where
  | auth (db : DB) (verify : String → String → Bool) (now : Nat)
      (username password : String) :
      Step db (authenticate_user db verify now username password).2
  | create (db : DB) (now ttl user_id sid : Nat) (token tok : String) (dbN : DB)
      (h : create_session db now ttl user_id sid token = .ok (tok, dbN)) :
      Step db dbN
  | validate (db : DB) (now : Nat) (token : String) :
      Step db (validate_session db now token).2
  | invalidate (db : DB) (token : String) :
      Step db (invalidate_session db token).2
  | revoke (db : DB) (now : Nat) (admin_token : String) (session_id : Nat) :
      Step db (revoke_session db now admin_token session_id).2
  | deleteUser (db : DB) (now : Nat) (admin_token : String) (user_id : Nat) :
      Step db (delete_user db now admin_token user_id).2
  | registerUser (db : DB) (now ttl : Nat) (hashFn : String → String)
      (req : RegisterRequest) (new_id sid : Nat) (token : String)
      (u : UserRec) (dbN : DB)
      (h : register db now ttl hashFn req new_id sid token = .ok (u, dbN)) :
      Step db dbN

/-- Every session row of `new` descends from a row of `old` with the same
token, and validity is never gained in the passage. -/
def WeakensTo (old new : List SessionRec) : Prop :=
  ∀ s₂ ∈ new, ∃ s₁ ∈ old,
    s₂.session_token = s₁.session_token ∧ (s₂.is_valid = true → s₁.is_valid = true)

lemma weakensTo_refl (l : List SessionRec) : WeakensTo l l :=
  fun s hs => ⟨s, hs, rfl, fun h => h⟩

lemma weakensTo_trans {a b c : List SessionRec}
    (hab : WeakensTo a b) (hbc : WeakensTo b c) : WeakensTo a c := by
  intro s₃ hs₃
  obtain ⟨s₂, hs₂, htok₂, hval₂⟩ := hbc s₃ hs₃
  obtain ⟨s₁, hs₁, htok₁, hval₁⟩ := hab s₂ hs₂
  exact ⟨s₁, hs₁, htok₂.trans htok₁, fun h => hval₁ (hval₂ h)⟩

lemma weakensTo_setSessionInvalid (db : DB) (sid : Nat) :
    WeakensTo db.sessions (setSessionInvalid db sid).sessions := by
  intro s₂ hs₂
  simp only [setSessionInvalid, List.mem_map] at hs₂
  obtain ⟨s₁, hs₁, rfl⟩ := hs₂
  by_cases hid : s₁.id = sid
  · exact ⟨s₁, hs₁, by simp [hid], by simp [hid]⟩
  · exact ⟨s₁, hs₁, by simp [hid], by simp [hid]⟩

lemma weakensTo_filter (l : List SessionRec) (p : SessionRec → Bool) :
    WeakensTo l (l.filter p) := by
  intro s₂ hs₂
  exact ⟨s₂, List.mem_of_mem_filter hs₂, rfl, fun h => h⟩

lemma validate_session_snd_weakens (db : DB) (now : Nat) (token : String) :
    WeakensTo db.sessions (validate_session db now token).2.sessions := by
  unfold validate_session
  cases hf : findSessionValid db token with
  | none => exact weakensTo_refl _
  | some s =>
    by_cases hexp : s.expires_at < now
    · simpa [hexp] using weakensTo_setSessionInvalid db s.id
    · simpa [hexp] using weakensTo_refl db.sessions

lemma get_admin_user_snd (db : DB) (now : Nat) (token : String) :
    (get_admin_user db now token).2 = (validate_session db now token).2 := by
  unfold get_admin_user
  rcases hv : validate_session db now token with ⟨user?, db1⟩
  cases user? with
  | none => rfl
  | some u =>
    dsimp only
    cases verify_admin u <;> rfl

lemma get_admin_user_snd_weakens (db : DB) (now : Nat) (token : String) :
    WeakensTo db.sessions (get_admin_user db now token).2.sessions := by
  rw [get_admin_user_snd]
  exact validate_session_snd_weakens db now token

lemma authenticate_user_snd_sessions (db : DB) (verify : String → String → Bool)
    (now : Nat) (username password : String) :
    (authenticate_user db verify now username password).2.sessions =
      db.sessions := by
  unfold authenticate_user
  cases hf : findActiveUserByUsername db username with
  | none => rfl
  | some u =>
    by_cases hpw : verify password u.password_hash = true
    · simp [hpw, setLastLogin]
    · simp [hpw]

/-- Monotonicity of invalidity over a weakening passage, given that tokens
are pairwise distinct in the old table. -/
lemma mono_of_weakensTo (old new : List SessionRec)
    (hnd : (old.map SessionRec.session_token).Nodup)
    (hw : WeakensTo old new) :
    (∀ s ∈ old, s.is_valid = false →
      ∀ s₂ ∈ new, s₂.session_token = s.session_token → s₂.is_valid = false) ∧
    (∀ s₂ ∈ new, (∀ s ∈ old, s.session_token ≠ s₂.session_token) →
      s₂.is_valid = true) := by
  constructor
  · intro s hs hinv s₂ hs₂ htok
    obtain ⟨s₁, hs₁, htok₁, hval₁⟩ := hw s₂ hs₂
    have : s₁ = s :=
      List.inj_on_of_nodup_map hnd hs₁ hs (htok₁.symm.trans htok)
    subst this
    cases hv : s₂.is_valid with
    | false => rfl
    | true => exact absurd (hval₁ hv) (by simp [hinv])
  · intro s₂ hs₂ hfresh
    obtain ⟨s₁, hs₁, htok₁, _⟩ := hw s₂ hs₂
    exact absurd htok₁.symm (hfresh s₁ hs₁)

/-- Monotonicity of invalidity when the passage appends one fresh valid row. -/
lemma mono_of_append (old : List SessionRec) (fresh : SessionRec)
    (hnd : (old.map SessionRec.session_token).Nodup)
    (hfr : ∀ s ∈ old, s.session_token ≠ fresh.session_token)
    (hval : fresh.is_valid = true) :
    (∀ s ∈ old, s.is_valid = false →
      ∀ s₂ ∈ old ++ [fresh], s₂.session_token = s.session_token →
        s₂.is_valid = false) ∧
    (∀ s₂ ∈ old ++ [fresh], (∀ s ∈ old, s.session_token ≠ s₂.session_token) →
      s₂.is_valid = true) := by
  constructor
  · intro s hs hinv s₂ hs₂ htok
    rcases List.mem_append.mp hs₂ with h₂ | h₂
    · have : s₂ = s := List.inj_on_of_nodup_map hnd h₂ hs htok
      subst this; exact hinv
    · have : s₂ = fresh := List.mem_singleton.mp h₂
      subst this
      exact absurd (htok.symm) (hfr s hs)
  · intro s₂ hs₂ hfresh
    rcases List.mem_append.mp hs₂ with h₂ | h₂
    · exact absurd rfl (hfresh s₂ h₂)
    · have : s₂ = fresh := List.mem_singleton.mp h₂
      subst this; exact hval

lemma invalidate_session_snd_weakens (db : DB) (token : String) :
    WeakensTo db.sessions (invalidate_session db token).2.sessions := by
  unfold invalidate_session
  cases hf : findSessionByToken db token with
  | none => exact weakensTo_refl _
  | some s => simpa using weakensTo_setSessionInvalid db s.id

lemma revoke_session_snd_weakens (db : DB) (now : Nat) (admin_token : String)
    (session_id : Nat) :
    WeakensTo db.sessions (revoke_session db now admin_token session_id).2.sessions := by
  unfold revoke_session
  have hg := get_admin_user_snd_weakens db now admin_token
  rcases hv : get_admin_user db now admin_token with ⟨admin?, db1⟩
  rw [hv] at hg
  cases admin? with
  | none => exact hg
  | some admin =>
    dsimp only
    cases hfind : db1.sessions.find? (fun s => s.id == session_id) with
    | none => exact hg
    | some s => exact weakensTo_trans hg (weakensTo_setSessionInvalid db1 s.id)

lemma delete_user_snd_weakens (db : DB) (now : Nat) (admin_token : String)
    (user_id : Nat) :
    WeakensTo db.sessions (delete_user db now admin_token user_id).2.sessions := by
  unfold delete_user
  have hg := get_admin_user_snd_weakens db now admin_token
  rcases hv : get_admin_user db now admin_token with ⟨admin?, db1⟩
  rw [hv] at hg
  cases admin? with
  | none => exact hg
  | some admin =>
    dsimp only
    cases hfind : db1.users.find? (fun u => u.id == user_id) with
    | none => exact hg
    | some u =>
      dsimp only
      by_cases hself : u.id = admin.id
      · rw [if_pos hself]; exact hg
      · rw [if_neg hself]
        exact weakensTo_trans hg (weakensTo_filter db1.sessions _)

/-- The committed case of `create_session`: the token passed the uniqueness
constraint and the store gained exactly the one new valid session row. -/
lemma create_session_ok {db : DB} {now ttl user_id sid : Nat}
    {token tok : String} {dbN : DB}
    (h : create_session db now ttl user_id sid token = .ok (tok, dbN)) :
    tok = token ∧
    db.sessions.any (fun t => t.session_token == token) = false ∧
    dbN.users = db.users ∧
    dbN.sessions = db.sessions ++
      [{ id := sid, user_id := user_id, session_token := token,
         expires_at := now + ttl, created_at := now, is_valid := true }] := by
  unfold create_session insertSession at h
  by_cases hany : db.sessions.any (fun t => t.session_token == token) = true
  · simp [hany] at h
  · simp [hany] at h
    refine ⟨h.1.symm, by simpa using hany, ?_, ?_⟩
    · rw [← h.2]
    · rw [← h.2]

/-- The committed case of `register`: the inserted user is active and
non-admin, and the store gained exactly that user row plus one new valid
session row for it. -/
lemma register_ok {db : DB} {now ttl : Nat} {hashFn : String → String}
    {req : RegisterRequest} {new_id sid : Nat} {token : String}
    {u : UserRec} {dbN : DB}
    (h : register db now ttl hashFn req new_id sid token = .ok (u, dbN)) :
    u = { id := new_id, username := req.username, email := req.email,
          password_hash := hashFn req.password, full_name := req.full_name,
          is_active := true, is_admin := false,
          last_login_at := none, created_at := now } ∧
    dbN.users = db.users ++ [u] ∧
    db.sessions.any (fun t => t.session_token == token) = false ∧
    dbN.sessions = db.sessions ++
      [{ id := sid, user_id := new_id, session_token := token,
         expires_at := now + ttl, created_at := now, is_valid := true }] := by
  unfold register at h
  by_cases h1 : db.users.any (fun v => v.username == req.username) = true
  · simp [h1] at h
  · by_cases h2 : db.users.any (fun v => v.email == req.email) = true
    · simp [h1, h2] at h
    · simp only [h1, h2, Bool.false_eq_true, if_false] at h
      cases hc : create_session
          { db with users := db.users ++
              [{ id := new_id, username := req.username, email := req.email,
                 password_hash := hashFn req.password, full_name := req.full_name,
                 is_active := true, is_admin := false,
                 last_login_at := none, created_at := now }] }
          now ttl new_id sid token with
      | error e => rw [hc] at h; simp at h
      | ok p =>
        rw [hc] at h
        obtain ⟨tok2, db2⟩ := p
        simp only [Except.ok.injEq, Prod.mk.injEq] at h
        obtain ⟨hu, hdb⟩ := h
        obtain ⟨-, hany, husers, hsessions⟩ := create_session_ok hc
        subst hdb
        refine ⟨hu.symm, ?_, by simpa using hany, by simpa using hsessions⟩
        rw [husers, ← hu]

lemma setSessionInvalid_invalid (db : DB) (sid : Nat) :
    ∀ s₂ ∈ (setSessionInvalid db sid).sessions, s₂.id = sid → s₂.is_valid = false := by
  intro s₂ hs₂ hid
  simp only [setSessionInvalid, List.mem_map] at hs₂
  obtain ⟨s₁, hs₁, rfl⟩ := hs₂
  by_cases h : s₁.id = sid
  · simp [h]
  · rw [if_neg h] at hid
    exact absurd hid h

lemma validate_session_of_find_none (db : DB) (now : Nat) (token : String)
    (h : findSessionValid db token = none) :
    validate_session db now token = (none, db) := by
  unfold validate_session
  rw [h]

lemma validate_session_of_expired (db : DB) (now : Nat) (token : String)
    (s : SessionRec) (h : findSessionValid db token = some s)
    (hexp : s.expires_at < now) :
    validate_session db now token = (none, setSessionInvalid db s.id) := by
  unfold validate_session
  rw [h]
  simp [hexp]

lemma validate_session_of_live (db : DB) (now : Nat) (token : String)
    (s : SessionRec) (h : findSessionValid db token = some s)
    (hexp : now ≤ s.expires_at) :
    validate_session db now token = (findActiveUserById db s.user_id, db) := by
  unfold validate_session
  rw [h]
  simp [Nat.not_lt.mpr hexp]

lemma get_admin_user_fst_none (db : DB) (now : Nat) (token : String)
    (h : (validate_session db now token).1 = none) :
    (get_admin_user db now token).1 = none := by
  unfold get_admin_user
  dsimp only
  rw [h]

lemma get_admin_user_fst_some (db : DB) (now : Nat) (token : String)
    (u : UserRec) (h : (validate_session db now token).1 = some u) :
    (get_admin_user db now token).1 =
      if verify_admin u then some u else none := by
  unfold get_admin_user
  dsimp only
  rw [h]
  dsimp only
  cases verify_admin u <;> rfl

lemma findSessionValid_none_of_byToken_none (db : DB) (token : String)
    (h : findSessionByToken db token = none) :
    findSessionValid db token = none := by
  unfold findSessionByToken at h
  unfold findSessionValid
  rw [List.find?_eq_none] at h ⊢
  intro s hs
  simp only [Bool.and_eq_true, not_and]
  intro htok
  exact absurd htok (h s hs)

/-- C1 (counterexample): in `dbBoundary` the session `sessionBoundary` is
valid and its `expires_at` equals the current time 100 (so `expires_at ≤ now`
holds), yet `validate_session` returns the owning user and leaves the store
unchanged — the session is treated as live and its `is_valid` flag is not
flipped, contradicting the claim that a session whose expiry instant has been
reached (including exact equality) is never treated as live. -/
theorem validate_session_boundary_counterexample :
    sessionBoundary.is_valid = true ∧
    sessionBoundary.expires_at ≤ 100 ∧
    findSessionValid dbBoundary "tokA" = some sessionBoundary ∧
    validate_session dbBoundary 100 "tokA" = (some alice, dbBoundary) :=
  ⟨rfl, by decide, rfl, rfl⟩

/-- C1 (amended): for a session found valid by token, `validate_session`
flips `is_valid` to false, persists the change and returns none exactly when
`expires_at` is strictly before the current time (`expires_at < now`); when
`now ≤ expires_at` — including exact equality of `expires_at` with the
current time — the session record is left untouched and the owning active
user is returned. -/
theorem validate_session_lazy_expiry_strict (db : DB) (now : Nat)
    (token : String) (s : SessionRec)
    (hfind : findSessionValid db token = some s) :
    (s.expires_at < now →
      validate_session db now token = (none, setSessionInvalid db s.id) ∧
      ∀ s₂ ∈ (setSessionInvalid db s.id).sessions, s₂.id = s.id →
        s₂.is_valid = false) ∧
    (now ≤ s.expires_at →
      validate_session db now token = (findActiveUserById db s.user_id, db)) := by
  constructor
  · intro hexp
    exact ⟨validate_session_of_expired db now token s hfind hexp,
           setSessionInvalid_invalid db s.id⟩
  · intro hle
    exact validate_session_of_live db now token s hfind hle

/-- C1 (witness): the amended theorem applied to the expired fixture. -/
theorem validate_session_lazy_expiry_strict_witness :
    (validate_session dbExpired 100 "tokB" =
        (none, setSessionInvalid dbExpired sessionExpired.id) ∧
      ∀ s₂ ∈ (setSessionInvalid dbExpired sessionExpired.id).sessions,
        s₂.id = sessionExpired.id → s₂.is_valid = false) :=
  (validate_session_lazy_expiry_strict dbExpired 100 "tokB" sessionExpired
    rfl).1 (by decide)

/-- C3 (counterexample): `sessionStale` already has `is_valid = false`, the
token `tokD` matches it, and `invalidate_session` returns true on it — not
false as the claim states. -/
theorem invalidate_session_already_invalid_counterexample :
    sessionStale.is_valid = false ∧
    findSessionByToken dbStale "tokD" = some sessionStale ∧
    (invalidate_session dbStale "tokD").1 = true :=
  ⟨rfl, rfl, rfl⟩

/-- C3 (amended): `invalidate_session` never errors (it is a total function
into `Bool × DB`); it returns false — leaving the store unchanged — exactly
when no session record carries the token, and returns true whenever a record
exists, whether that record was still valid or already invalid. -/
theorem invalidate_session_found_flag (db : DB) (token : String) :
    (invalidate_session db token).1 =
      db.sessions.any (fun s => s.session_token == token) ∧
    (db.sessions.any (fun s => s.session_token == token) = false →
      invalidate_session db token = (false, db)) := by
  unfold invalidate_session findSessionByToken
  cases hf : db.sessions.find? (fun s => s.session_token == token) with
  | none =>
    have hany : db.sessions.any (fun s => s.session_token == token) = false := by
      rw [List.any_eq_false]
      intro s hs
      exact (List.find?_eq_none.mp hf) s hs
    exact ⟨hany.symm, fun _ => rfl⟩
  | some s =>
    have hp := List.find?_some hf
    have hany : db.sessions.any (fun s => s.session_token == token) = true :=
      List.any_eq_true.mpr ⟨s, List.mem_of_find?_eq_some hf, hp⟩
    refine ⟨hany.symm, fun hcon => ?_⟩
    rw [hany] at hcon
    exact absurd hcon (by simp)

/-- C3 (witness): the amended theorem applied to the empty store, where the
token is unknown and the call returns false with the store unchanged. -/
theorem invalidate_session_found_flag_witness :
    invalidate_session dbEmpty "zzz" = (false, dbEmpty) :=
  (invalidate_session_found_flag dbEmpty "zzz").2 rfl

/-- C4 (counterexample): `dbDup` already holds a session whose token is
`dup`; calling `create_session` with the freshly generated token `dup`
returns the uniqueness-constraint error instead of retrying with a new
token, so it is not the case that `create_session` always eventually returns
a token whose insertion succeeded. -/
theorem create_session_collision_counterexample :
    dbDup.sessions.any (fun t => t.session_token == "dup") = true ∧
    create_session dbDup 0 7 1 6 "dup" = .error () :=
  ⟨rfl, rfl⟩

/-- C4 (amended): `create_session` makes a single insertion attempt with the
single token it was handed: when that token collides with the uniqueness
constraint the call fails with the constraint violation (no retry); when the
token is fresh the call returns it and the store gains exactly one new valid
session row for the user, expiring at `now + ttl`. -/
theorem create_session_single_attempt (db : DB) (now ttl user_id sid : Nat)
    (token : String) :
    (db.sessions.any (fun t => t.session_token == token) = true →
      create_session db now ttl user_id sid token = .error ()) ∧
    (db.sessions.any (fun t => t.session_token == token) = false →
      create_session db now ttl user_id sid token =
        .ok (token, { db with sessions := db.sessions ++
          [{ id := sid, user_id := user_id, session_token := token,
             expires_at := now + ttl, created_at := now, is_valid := true }] })) := by
  unfold create_session insertSession
  dsimp only
  constructor
  · intro hany
    rw [hany]
    rfl
  · intro hany
    rw [hany]
    rfl

/-- C4 (witness): the amended theorem applied to a colliding and to a fresh
token. -/
theorem create_session_single_attempt_witness :
    create_session dbDup 0 7 1 6 "dup" = .error () ∧
    create_session dbEmpty 0 7 1 1 "fresh" =
      .ok ("fresh", { dbEmpty with sessions := dbEmpty.sessions ++
        [{ id := 1, user_id := 1, session_token := "fresh",
           expires_at := 0 + 7, created_at := 0, is_valid := true }] }) :=
  ⟨(create_session_single_attempt dbDup 0 7 1 6 "dup").1 (by decide),
   (create_session_single_attempt dbEmpty 0 7 1 1 "fresh").2 rfl⟩

/-- C2: in each of the four failure cases — no session record carries the
token; the matching valid session is expired; the session is live but its
user is not an admin; every user owning the session is inactive — the admin
gate `get_admin_user` returns the same result, none, so the caller cannot
tell the failures apart. -/
theorem get_admin_user_uniform_denial (db : DB) (now : Nat) (token : String) :
    (findSessionByToken db token = none →
      (get_admin_user db now token).1 = none) ∧
    (∀ s, findSessionValid db token = some s → s.expires_at < now →
      (get_admin_user db now token).1 = none) ∧
    (∀ s u, findSessionValid db token = some s → now ≤ s.expires_at →
      findActiveUserById db s.user_id = some u → u.is_admin = false →
      (get_admin_user db now token).1 = none) ∧
    (∀ s, findSessionValid db token = some s → now ≤ s.expires_at →
      (∀ u ∈ db.users, u.id = s.user_id → u.is_active = false) →
      (get_admin_user db now token).1 = none) := by
  refine ⟨?_, ?_, ?_, ?_⟩
  · intro hbt
    apply get_admin_user_fst_none
    rw [validate_session_of_find_none db now token
      (findSessionValid_none_of_byToken_none db token hbt)]
  · intro s hfind hexp
    apply get_admin_user_fst_none
    rw [validate_session_of_expired db now token s hfind hexp]
  · intro s u hfind hle huser hadm
    have hval : (validate_session db now token).1 = some u := by
      rw [validate_session_of_live db now token s hfind hle, huser]
    rw [get_admin_user_fst_some db now token u hval]
    have hv : verify_admin u = false := by
      unfold verify_admin
      rw [hadm, Bool.and_false]
    rw [hv]
    rfl
  · intro s hfind hle hinact
    apply get_admin_user_fst_none
    rw [validate_session_of_live db now token s hfind hle]
    show findActiveUserById db s.user_id = none
    unfold findActiveUserById
    rw [List.find?_eq_none]
    intro u hu
    simp only [Bool.and_eq_true, beq_iff_eq, not_and]
    intro hid
    rw [hinact u hu hid]
    simp

/-- C2 (witness): the four denial cases at concrete stores — unknown token
on the empty store, the expired `sessionExpired`, the live session of the
non-admin `alice`, and the live session of the inactive admin
`carlInactive` — all yield none. -/
theorem get_admin_user_uniform_denial_witness :
    (get_admin_user dbEmpty 0 "nope").1 = none ∧
    (get_admin_user dbExpired 100 "tokB").1 = none ∧
    (get_admin_user dbBoundary 100 "tokA").1 = none ∧
    (get_admin_user dbInactiveAdmin 100 "tokC").1 = none :=
  ⟨(get_admin_user_uniform_denial dbEmpty 0 "nope").1 rfl,
   (get_admin_user_uniform_denial dbExpired 100 "tokB").2.1 sessionExpired
     rfl (by decide),
   (get_admin_user_uniform_denial dbBoundary 100 "tokA").2.2.1 sessionBoundary
     alice rfl (by decide) rfl rfl,
   (get_admin_user_uniform_denial dbInactiveAdmin 100 "tokC").2.2.2
     sessionOfCarl rfl (by decide) (by decide)⟩

/-- C5: `authenticate_user` with an unknown or inactive username (no active
user found) returns none and leaves the store unchanged; with a wrong
password it returns none and leaves the store unchanged — the three failure
causes produce the same result `(none, db)`; on success it returns the user
and the only state change is setting that user's `last_login_at` to the
current time (the sessions table and every other user field are untouched). -/
theorem authenticate_user_frame (db : DB) (verify : String → String → Bool)
    (now : Nat) (username password : String) :
    (findActiveUserByUsername db username = none →
      authenticate_user db verify now username password = (none, db)) ∧
    (∀ u, findActiveUserByUsername db username = some u →
      verify password u.password_hash = false →
      authenticate_user db verify now username password = (none, db)) ∧
    (∀ u, findActiveUserByUsername db username = some u →
      verify password u.password_hash = true →
      authenticate_user db verify now username password =
        (some { u with last_login_at := some now }, setLastLogin db u.id now) ∧
      (setLastLogin db u.id now).sessions = db.sessions ∧
      (setLastLogin db u.id now).users = db.users.map
        (fun v => if v.id = u.id then { v with last_login_at := some now }
                  else v)) := by
  refine ⟨?_, ?_, ?_⟩
  · intro hf
    unfold authenticate_user
    rw [hf]
  · intro u hf hpw
    unfold authenticate_user
    rw [hf]
    dsimp only
    rw [hpw]
    rfl
  · intro u hf hpw
    refine ⟨?_, rfl, rfl⟩
    unfold authenticate_user
    rw [hf]
    dsimp only
    rw [hpw]
    rfl

/-- C5 (witness): the theorem applied with an equality password check to the
fixture store — a wrong password leaves the store unchanged, the right
password updates only `last_login_at` of `alice`. -/
theorem authenticate_user_frame_witness :
    authenticate_user dbBoundary (fun p h => p == h) 5 "alice" "wrong" =
      (none, dbBoundary) ∧
    authenticate_user dbBoundary (fun p h => p == h) 5 "alice" "h1" =
      (some { alice with last_login_at := some 5 },
       setLastLogin dbBoundary alice.id 5) :=
  ⟨(authenticate_user_frame dbBoundary (fun p h => p == h) 5 "alice"
      "wrong").2.1 alice rfl rfl,
   ((authenticate_user_frame dbBoundary (fun p h => p == h) 5 "alice"
      "h1").2.2 alice rfl rfl).1⟩

/-- C6: the accept/reject decision of the upload validator depends only on
the byte content (its size and its sniffed MIME type), never on the declared
filename: two uploads of the same content with different filenames agree on
acceptance, and on rejection they produce the very same outcome; a 2048-byte
buffer sniffed as a WAV type is accepted whatever the declared filename
(including one ending in .mp3), and content sniffed as text/plain is
rejected whatever the declared filename (including one ending in .wav). -/
theorem upload_audio_content_only (sniff : List Nat → String)
    (content : List Nat) (f₁ f₂ : String)
    (username timestamp unique_id : String) :
    (isAccepted (upload_audio sniff content f₁ username timestamp unique_id) =
      isAccepted (upload_audio sniff content f₂ username timestamp unique_id)) ∧
    (isAccepted (upload_audio sniff content f₁ username timestamp unique_id)
        = false →
      upload_audio sniff content f₁ username timestamp unique_id =
        upload_audio sniff content f₂ username timestamp unique_id) ∧
    (content.length = 2048 → sniff content = "audio/x-wav" →
      isAccepted (upload_audio sniff content f₁ username timestamp unique_id)
        = true) ∧
    (sniff content = "text/plain" →
      isAccepted (upload_audio sniff content f₁ username timestamp unique_id)
        = false) := by
  unfold upload_audio
  dsimp only
  split_ifs with h1 h2 h3
  · refine ⟨rfl, fun _ => rfl, ?_, fun _ => rfl⟩
    intro hlen _
    rw [hlen] at h1
    exact absurd h1 (by decide)
  · refine ⟨rfl, fun _ => rfl, ?_, fun _ => rfl⟩
    intro hlen _
    rw [hlen] at h2
    exact absurd h2 (by decide)
  · refine ⟨rfl, ?_, fun _ _ => rfl, ?_⟩
    · intro hacc
      exact absurd hacc (by simp [isAccepted])
    · intro hsn
      rw [hsn] at h3
      exact absurd h3 (by decide)
  · refine ⟨rfl, fun _ => rfl, ?_, fun _ => rfl⟩
    intro _ hsn
    rw [hsn] at h3
    exact absurd (by decide : ALLOWED_MIME_TYPES.contains "audio/x-wav" = true) h3

/-- C6 (witness): with a sniffer reporting a WAV type on buffers of at least
1 KB, the 2048-byte buffer is accepted under an .mp3 filename, and the
buffer sniffed as text/plain is rejected under a .wav filename. -/
theorem upload_audio_content_only_witness :
    isAccepted (upload_audio sniffDemo wavBuf "talk.mp3" "u" "ts" "id")
      = true ∧
    isAccepted (upload_audio sniffDemo txtBuf "talk.wav" "u" "ts" "id")
      = false :=
  ⟨(upload_audio_content_only sniffDemo wavBuf "talk.mp3" "x" "u" "ts"
      "id").2.2.1
      (by
        show (List.replicate 2048 (0 : Nat)).length = 2048
        rw [List.length_replicate])
      (by
        have hlen : wavBuf.length = 2048 := by
          show (List.replicate 2048 (0 : Nat)).length = 2048
          rw [List.length_replicate]
        show (if 1024 ≤ wavBuf.length then "audio/x-wav" else "text/plain")
            = "audio/x-wav"
        rw [hlen]
        decide),
   (upload_audio_content_only sniffDemo txtBuf "talk.wav" "x" "u" "ts"
      "id").2.2.2 (by simp [sniffDemo, txtBuf])⟩

/-- C7: the upload validator rejects a buffer at the size gate exactly when
its length is below 1024 bytes or above 50 * 1024 * 1024 bytes; in
particular buffers of exactly 1024 and exactly 50 * 1024 * 1024 bytes pass
the size check, while a 500-byte or a 60 MB buffer is rejected. -/
theorem upload_audio_size_bounds (sniff : List Nat → String)
    (content : List Nat) (filename username timestamp unique_id : String) :
    sizeRejected (upload_audio sniff content filename username timestamp
        unique_id) = true ↔
      content.length < 1024 ∨ 50 * 1024 * 1024 < content.length := by
  unfold upload_audio MIN_SIZE MAX_SIZE
  dsimp only
  split_ifs with h1 h2 h3
  · simp [sizeRejected, h1]
  · simp [sizeRejected, h2]
  · simp [sizeRejected, h1, h2]
  · simp [sizeRejected, h1, h2]

/-- C8: a single operation of the system never flips a session's `is_valid`
flag from false to true — every session invalid before a step is still
invalid (or gone) after it, identifying sessions by their unique token — and
any session row whose token is new in this step was created with
`is_valid = true`. -/
theorem sessions_never_resurrected (db dbN : DB) (hstep : Step db dbN)
    (hnd : (db.sessions.map SessionRec.session_token).Nodup) :
    (∀ s ∈ db.sessions, s.is_valid = false →
      ∀ s₂ ∈ dbN.sessions, s₂.session_token = s.session_token →
        s₂.is_valid = false) ∧
    (∀ s₂ ∈ dbN.sessions,
      (∀ s ∈ db.sessions, s.session_token ≠ s₂.session_token) →
      s₂.is_valid = true) := by
  cases hstep with
  | auth verify now username password =>
    rw [authenticate_user_snd_sessions]
    exact mono_of_weakensTo db.sessions db.sessions hnd (weakensTo_refl _)
  | create now ttl user_id sid token tok dbM h =>
    obtain ⟨-, hany, -, hsess⟩ := create_session_ok h
    rw [hsess]
    refine mono_of_append db.sessions _ hnd ?_ rfl
    intro s hs heq
    rw [List.any_eq_false] at hany
    have hf := hany s hs
    rw [heq] at hf
    simp at hf
  | validate now token =>
    exact mono_of_weakensTo _ _ hnd (validate_session_snd_weakens db now token)
  | invalidate token =>
    exact mono_of_weakensTo _ _ hnd (invalidate_session_snd_weakens db token)
  | revoke now admin_token session_id =>
    exact mono_of_weakensTo _ _ hnd
      (revoke_session_snd_weakens db now admin_token session_id)
  | deleteUser now admin_token user_id =>
    exact mono_of_weakensTo _ _ hnd
      (delete_user_snd_weakens db now admin_token user_id)
  | registerUser now ttl hashFn req new_id sid token u dbM h =>
    obtain ⟨-, -, hany, hsess⟩ := register_ok h
    rw [hsess]
    refine mono_of_append db.sessions _ hnd ?_ rfl
    intro s hs heq
    rw [List.any_eq_false] at hany
    have hf := hany s hs
    rw [heq] at hf
    simp at hf

/-- C8 (witness): the theorem applied to a logout step on the store holding
the already-invalid `sessionStale`. -/
theorem sessions_never_resurrected_witness :
    (∀ s ∈ dbStale.sessions, s.is_valid = false →
      ∀ s₂ ∈ (invalidate_session dbStale "tokD").2.sessions,
        s₂.session_token = s.session_token → s₂.is_valid = false) ∧
    (∀ s₂ ∈ (invalidate_session dbStale "tokD").2.sessions,
      (∀ s ∈ dbStale.sessions, s.session_token ≠ s₂.session_token) →
      s₂.is_valid = true) :=
  sessions_never_resurrected dbStale _ (Step.invalidate dbStale "tokD")
    (by decide)

/-- C10: every user created through the public registration operation comes
out with `is_active = true` and `is_admin = false` and is present in the
resulting store — the request type carries no admin flag, so no choice of
request can yield an admin via self-registration. -/
theorem register_user_not_admin (db : DB) (now ttl : Nat)
    (hashFn : String → String) (req : RegisterRequest) (new_id sid : Nat)
    (token : String) (u : UserRec) (dbN : DB)
    (h : register db now ttl hashFn req new_id sid token = .ok (u, dbN)) :
    u.is_active = true ∧ u.is_admin = false ∧ u ∈ dbN.users := by
  obtain ⟨hu, husers, -, -⟩ := register_ok h
  subst hu
  refine ⟨rfl, rfl, ?_⟩
  rw [husers]
  simp

/-- C10 (witness): registering `regReq` against the empty store yields the
active non-admin `regUser` inside `regDB`. -/
theorem register_user_not_admin_witness :
    regUser.is_active = true ∧ regUser.is_admin = false ∧
    regUser ∈ regDB.users :=
  register_user_not_admin dbEmpty 0 7 (fun p => p) regReq 9 10 "tokR"
    regUser regDB rfl

end TranscribeAuth
